import Mathlib

/-!
Verification of the MCP Memory Service Python example client
(`examples/python-client.py`): a shallow embedding of the client's
request construction, URL joining, header setup, JSON-body building,
error handling, and the example driver, together with theorems about
the spec's claims.
-/

set_option autoImplicit false

/-- JSON values as built by the Python client: strings, integers,
floating literals (modelled by their exact decimal value as a rational),
booleans, null, arrays, and objects. Objects appear only via the
`Dict` assoc-list representation below. -/
inductive Json where
  | str (s : String)
  | int (n : Int)
  | dec (q : Rat)
  | bool (b : Bool)
  | null
  | arr (xs : List Json)
  | obj (fields : List (String × Json))

/-- A Python `dict` with string keys, as an insertion-ordered
association list with unique keys (the way every dict in the client is
built: literals and item assignment). -/
abbrev Dict (α : Type) : Type := List (String × α)

/-- Python dict item assignment `d[k] = v`: if `k` is present its value
is updated in place (position preserved), otherwise `(k, v)` is
appended at the end. -/
def dictInsert {α : Type} (d : Dict α) (k : String) (v : α) : Dict α :=
  if k ∈ d.map Prod.fst then
    d.map (fun p => if p.1 = k then (k, v) else p)
  else
    d ++ [(k, v)]

/-- Python dict lookup `d[k]` / `d.get(k)` (first entry with the key;
dicts built by `dictInsert` have unique keys). -/
def dictLookup {α : Type} (d : Dict α) (k : String) : Option α :=
  match d with
  | [] => none
  | (k1, v1) :: t => if k1 = k then some v1 else dictLookup t k

/-- Python `d.update(kvs)` / dict-literal `{... , **kvs}`: insert the
pairs of `kvs` left to right. -/
def dictUpdate {α : Type} (d : Dict α) (kvs : List (String × α)) : Dict α :=
  kvs.foldl (fun acc p => dictInsert acc p.1 p.2) d

/-- Build a dict from a literal `{k1: v1, ..., kn: vn}`. -/
def dictOfList {α : Type} (kvs : List (String × α)) : Dict α :=
  dictUpdate [] kvs

theorem dictLookup_eq_none_of_not_mem {α : Type} (d : Dict α) (k : String)
    (h : k ∉ d.map Prod.fst) : dictLookup d k = none := by
  induction d with
  | nil => rfl
  | cons p t ih =>
    obtain ⟨k1, v1⟩ := p
    simp only [List.map_cons, List.mem_cons] at h
    push_neg at h
    simp only [dictLookup]
    rw [if_neg (fun he => h.1 he.symm)]
    exact ih h.2

theorem dictLookup_append_right {α : Type} (d e : Dict α) (k : String)
    (h : k ∉ d.map Prod.fst) : dictLookup (d ++ e) k = dictLookup e k := by
  induction d with
  | nil => rfl
  | cons p t ih =>
    obtain ⟨k1, v1⟩ := p
    simp only [List.map_cons, List.mem_cons] at h
    push_neg at h
    simp only [List.cons_append, dictLookup]
    rw [if_neg (fun he => h.1 he.symm)]
    exact ih h.2

theorem dictLookup_replace_self {α : Type} (d : Dict α) (k : String) (v : α)
    (h : k ∈ d.map Prod.fst) :
    dictLookup (d.map (fun p => if p.1 = k then (k, v) else p)) k = some v := by
  induction d with
  | nil => simp at h
  | cons p t ih =>
    obtain ⟨k1, v1⟩ := p
    simp only [List.map_cons, List.mem_cons] at h
    rw [List.map_cons]
    by_cases hk : k1 = k
    · have hh : (if (k1, v1).1 = k then (k, v) else (k1, v1)) = (k, v) := by
        simp [hk]
      rw [hh]
      simp [dictLookup]
    · have hh : (if (k1, v1).1 = k then (k, v) else (k1, v1)) = (k1, v1) := by
        simp [hk]
      rw [hh]
      simp only [dictLookup]
      rw [if_neg hk]
      rcases h with h1 | h2
      · exact absurd h1.symm hk
      · exact ih h2

theorem dictLookup_replace_ne {α : Type} (d : Dict α) (k k2 : String) (v : α)
    (hne : k2 ≠ k) :
    dictLookup (d.map (fun p => if p.1 = k then (k, v) else p)) k2 = dictLookup d k2 := by
  induction d with
  | nil => rfl
  | cons p t ih =>
    obtain ⟨k1, v1⟩ := p
    rw [List.map_cons]
    by_cases hk : k1 = k
    · have hh : (if (k1, v1).1 = k then (k, v) else (k1, v1)) = (k, v) := by
        simp [hk]
      rw [hh]
      simp only [dictLookup]
      rw [if_neg (fun he : k = k2 => hne he.symm),
        if_neg (fun he : k1 = k2 => hne (hk ▸ he).symm)]
      exact ih
    · have hh : (if (k1, v1).1 = k then (k, v) else (k1, v1)) = (k1, v1) := by
        simp [hk]
      rw [hh]
      simp only [dictLookup]
      by_cases hq2 : k1 = k2
      · rw [if_pos hq2, if_pos hq2]
      · rw [if_neg hq2, if_neg hq2]
        exact ih

theorem dictLookup_dictInsert_self {α : Type} (d : Dict α) (k : String) (v : α) :
    dictLookup (dictInsert d k v) k = some v := by
  unfold dictInsert
  by_cases hmem : k ∈ d.map Prod.fst
  · rw [if_pos hmem]
    exact dictLookup_replace_self d k v hmem
  · rw [if_neg hmem, dictLookup_append_right d _ k hmem]
    simp [dictLookup]

theorem dictLookup_dictInsert_ne {α : Type} (d : Dict α) (k k2 : String) (v : α)
    (hne : k2 ≠ k) : dictLookup (dictInsert d k v) k2 = dictLookup d k2 := by
  unfold dictInsert
  by_cases hmem : k ∈ d.map Prod.fst
  · rw [if_pos hmem]
    exact dictLookup_replace_ne d k k2 v hne
  · rw [if_neg hmem]
    induction d with
    | nil =>
      simp only [List.nil_append, dictLookup]
      rw [if_neg (fun he : k = k2 => hne he.symm)]
    | cons p t ih =>
      obtain ⟨k1, v1⟩ := p
      simp only [List.cons_append, dictLookup]
      by_cases hq2 : k1 = k2
      · rw [if_pos hq2, if_pos hq2]
      · rw [if_neg hq2, if_neg hq2]
        simp only [List.map_cons, List.mem_cons] at hmem
        push_neg at hmem
        exact ih hmem.2

/-- `MemoryServiceConfig` dataclass: `base_url`, `auth_token`,
`timeout: int = 30`, `verify_ssl: bool = True`. The two defaults are
recorded by `mkConfig` below, which mirrors constructing the dataclass
with only the two required fields. -/
structure MemoryServiceConfig where
  base_url : String
  auth_token : String
  timeout : Int
  verify_ssl : Bool

/-- Constructing `MemoryServiceConfig(base_url=..., auth_token=...)`
with the dataclass defaults `timeout = 30` and `verify_ssl = True`. -/
def mkConfig (base_url auth_token : String) : MemoryServiceConfig :=
  { base_url := base_url, auth_token := auth_token, timeout := 30, verify_ssl := true }

/-- Headers of a fresh `requests.Session()` before the client's
`headers.update`. Modelled from the requests library's
`default_headers()`: User-Agent, Accept-Encoding, Accept, Connection. -/
def requestsDefaultHeaders : Dict String :=
  [("User-Agent", "python-requests/2.x"),
   ("Accept-Encoding", "gzip, deflate"),
   ("Accept", "*/*"),
   ("Connection", "keep-alive")]

/-- The header dict after `self.session.headers.update({...})` in
`MemoryServiceClient.__init__`, with the six pairs in source order. -/
def clientHeaders (config : MemoryServiceConfig) : Dict String :=
  dictUpdate requestsDefaultHeaders
    [("Content-Type", "application/json"),
     ("Accept", "application/json"),
     ("Authorization", "Bearer " ++ config.auth_token),
     ("X-Client-Type", "python"),
     ("X-Client-Version", "1.0.0"),
     ("User-Agent", "mcp-memory-python-client/1.0.0")]

/-- The client's `requests.Session` after `__init__`. `timeoutAttr`
models the ad-hoc attribute assignment `self.session.timeout =
config.timeout`: the requests library's `Session` has no such
attribute, and `Session.request` takes its timeout solely from the
per-call `timeout=` keyword argument (default `None`), so this field
is never read when a request is issued. `verify`, by contrast, is a
real `Session` attribute that `merge_environment_settings` applies to
every request whose call site does not pass `verify`. -/
structure Session where
  headers : Dict String
  verify : Bool
  timeoutAttr : Int

/-- `MemoryServiceClient.__init__`: set up the session headers and
assign `session.verify` and the unread `session.timeout` attribute. -/
def mkSession (config : MemoryServiceConfig) : Session :=
  { headers := clientHeaders config,
    verify := config.verify_ssl,
    timeoutAttr := config.timeout }

/-- Python `s.rstrip('/')`: remove every trailing slash. -/
def pyRstripSlash (s : String) : String :=
  String.mk ((s.data.reverse.dropWhile (fun c => c = '/')).reverse)

/-- Python `s.lstrip('/')`: remove every leading slash. -/
def pyLstripSlash (s : String) : String :=
  String.mk (s.data.dropWhile (fun c => c = '/'))

/-- URL built by `_request`:
`f"{self.config.base_url.rstrip('/')}/{endpoint.lstrip('/')}"`. -/
def requestUrl (base_url endpoint : String) : String :=
  pyRstripSlash base_url ++ "/" ++ pyLstripSlash endpoint

/-- The HTTP request as handed to the transport: everything the
requests library resolves for `session.request(method, url, **kwargs)`
at the moment the call is issued. -/
structure HttpRequest where
  method : String
  url : String
  headers : Dict String
  params : Dict Json
  body : Option (Dict Json)
  timeout : Option Int
  verify : Bool

/-- `session.request(method, url, **kwargs)` as invoked by
`MemoryServiceClient._request`: the call sites pass only `params=` or
`json=`, never `timeout=`, so the issued request's timeout is the
requests-library default `None`; `verify` falls back to the session's
`verify` attribute. -/
def sessionRequest (s : Session) (method url : String)
    (params : Dict Json) (body : Option (Dict Json)) : HttpRequest :=
  { method := method, url := url, headers := s.headers, params := params,
    body := body, timeout := none, verify := s.verify }

/-- The request issued by `MemoryServiceClient._request(method, endpoint,
params=..., json=...)` for a client built from `config`. -/
def buildRequest (config : MemoryServiceConfig) (method endpoint : String)
    (params : Dict Json) (body : Option (Dict Json)) : HttpRequest :=
  sessionRequest (mkSession config) method (requestUrl config.base_url endpoint) params body

/-- Python `xs or []` for an optional list argument: `None` and `[]`
are falsy and yield `[]`; a non-empty list is returned unchanged. -/
def pyOrNil {α : Type} (o : Option (List α)) : List α :=
  match o with
  | some (a :: l) => a :: l
  | _ => []

/-- JSON body built by `add_memory`. -/
def add_memory_body (title content memory_type : String) (importance : Int)
    (tags : Option (List String)) (entity_ids : Option (List Int)) : Dict Json :=
  dictOfList
    [("title", Json.str title),
     ("content", Json.str content),
     ("memory_type", Json.str memory_type),
     ("importance", Json.int importance),
     ("tags", Json.arr ((pyOrNil tags).map Json.str)),
     ("entity_ids", Json.arr ((pyOrNil entity_ids).map Json.int))]

/-- `add_memory(title, content)` with every optional argument left at
its Python default: `memory_type="MEMORY"`, `importance=2`,
`tags=None`, `entity_ids=None`. -/
def add_memory_body_defaults (title content : String) : Dict Json :=
  add_memory_body title content "MEMORY" 2 none none

/-- Query params built by `search_memories`: the base dict, then
`memory_types` added only when the argument is truthy (non-`None` and
non-empty), comma-joined. -/
def search_memories_params (query : String) (limit : Int) (threshold : Rat)
    (memory_types : Option (List String)) : Dict Json :=
  let params := dictOfList
    [("query", Json.str query),
     ("limit", Json.int limit),
     ("threshold", Json.dec threshold)]
  match memory_types with
  | some (t :: ts) =>
      dictInsert params "memory_types" (Json.str (String.intercalate "," (t :: ts)))
  | _ => params

/-- `search_memories(query)` with defaults `limit=10, threshold=0.7,
memory_types=None`. -/
def search_memories_params_defaults (query : String) : Dict Json :=
  search_memories_params query 10 (7 / 10) none

/-- Query params built by `search_entities`. -/
def search_entities_params (query : String) (limit : Int) : Dict Json :=
  dictOfList [("query", Json.str query), ("limit", Json.int limit)]

/-- Query params built by `unified_search`: base dict, then
`memory_types` and `entity_types` each added only when truthy,
comma-joined, in that order. -/
def unified_search_params (query : String) (limit : Int) (threshold : Rat)
    (memory_types entity_types : Option (List String)) : Dict Json :=
  let params := dictOfList
    [("query", Json.str query),
     ("limit", Json.int limit),
     ("threshold", Json.dec threshold)]
  let params := match memory_types with
    | some (t :: ts) =>
        dictInsert params "memory_types" (Json.str (String.intercalate "," (t :: ts)))
    | _ => params
  match entity_types with
  | some (t :: ts) =>
      dictInsert params "entity_types" (Json.str (String.intercalate "," (t :: ts)))
  | _ => params

/-- `unified_search(query)` with defaults `limit=10, threshold=0.7,
memory_types=None, entity_types=None`. -/
def unified_search_params_defaults (query : String) : Dict Json :=
  unified_search_params query 10 (7 / 10) none none

/-- JSON body built by `create_entity`: the dict literal
`{name, entity_type, importance, **kwargs}` (kwargs merged last), then
`description` assigned afterwards only when truthy (non-`None`,
non-empty). Python's calling convention guarantees `kwargs` never
contains the declared parameter names `name`, `entity_type`,
`description`, `importance`. -/
def create_entity_body (name entity_type : String) (description : Option String)
    (importance : Int) (kwargs : Dict Json) : Dict Json :=
  let data := dictUpdate
    (dictOfList
      [("name", Json.str name),
       ("entity_type", Json.str entity_type),
       ("importance", Json.int importance)])
    kwargs
  match description with
  | some d => if d = "" then data else dictInsert data "description" (Json.str d)
  | none => data

/-- JSON body built by `create_user`: `{email}`, then `name` and
`organization` each assigned only when truthy (non-`None`, non-empty). -/
def create_user_body (email : String) (name organization : Option String) : Dict Json :=
  let data := dictOfList [("email", Json.str email)]
  let data2 := match name with
    | some n => if n = "" then data else dictInsert data "name" (Json.str n)
    | none => data
  match organization with
  | some o => if o = "" then data2 else dictInsert data2 "organization" (Json.str o)
  | none => data2

/-- An HTTP response as seen by the client: status code, body text, and
the outcome of the requests library's `Response.json()` parser on that
body (`none` when the body is not valid JSON; the parser itself is
library code, so its result is carried as data). -/
structure HttpResponse where
  status : Nat
  text : String
  json : Option Json

/-- `Response.raise_for_status()` raises an `HTTPError` exactly when
`400 <= status_code < 600` (modelled from the requests library: client
and server errors; informational, success and redirect statuses do not
raise). -/
def raisesForStatus (status : Nat) : Bool :=
  decide (400 ≤ status) && decide (status < 600)

/-- `200 <= status < 300`. -/
def is2xx (status : Nat) : Bool :=
  decide (200 ≤ status) && decide (status < 300)

/-- A failure surfaced by `_request`: an `HTTPError` from
`raise_for_status` (the ApiError of the spec, carrying its response), a
connection-level `RequestException` with no response attached, or a
JSON-decode failure from `response.json()` on the success path (also
without an attached response). -/
inductive RequestFailure where
  | httpError (resp : HttpResponse)
  | transportError (msg : String)
  | jsonDecodeError

/-- What the transport (`session.request`) produces: a connection-level
failure or a response. -/
abbrev TransportOutcome := Except String HttpResponse

/-- The try-block of `_request`: issue the call, `raise_for_status()`,
then `return response.json()`. -/
def requestOutcome (tr : TransportOutcome) : Except RequestFailure Json :=
  match tr with
  | Except.error m => Except.error (RequestFailure.transportError m)
  | Except.ok resp =>
    if raisesForStatus resp.status then Except.error (RequestFailure.httpError resp)
    else
      match resp.json with
      | some j => Except.ok j
      | none => Except.error RequestFailure.jsonDecodeError

/-- One diagnostic line printed by `_request`'s except block. -/
inductive DiagLine where
  | requestFailed (e : RequestFailure)
  | errorDetails (payload : Json)
  | responseText (text : String)

/-- The diagnostics `_request` prints before `raise`: always
`Request failed: ...`; when the exception carries a response, either
`Error details: ...` (body parsed as JSON) or, if that parse raises,
`Response text: ...` — the bare `except:` confines the parse failure
to the diagnostic path. -/
def requestDiagnostics (e : RequestFailure) : List DiagLine :=
  match e with
  | RequestFailure.httpError resp =>
      DiagLine.requestFailed e ::
        (match resp.json with
         | some j => [DiagLine.errorDetails j]
         | none => [DiagLine.responseText resp.text])
  | _ => [DiagLine.requestFailed e]

/-- `_request` in full: the try-block outcome, plus the diagnostics
printed on failure; the bare `raise` re-raises the caught exception
itself. -/
def requestWithDiagnostics (tr : TransportOutcome) :
    Except RequestFailure Json × List DiagLine :=
  match requestOutcome tr with
  | Except.ok j => (Except.ok j, [])
  | Except.error e => (Except.error e, requestDiagnostics e)

/-- The structured content an ApiError exposes: its response's status
code, and the parsed JSON payload when the body parses as JSON, the
raw response text otherwise. -/
def errorPayload (resp : HttpResponse) : Json ⊕ String :=
  match resp.json with
  | some j => Sum.inl j
  | none => Sum.inr resp.text

/-- One call to a derived operation of `MemoryServiceClient`, with its
arguments (optional arguments as `Option`s, `**kwargs` as a dict). -/
inductive Op where
  | health_check
  | get_service_info
  | add_memory (title content memory_type : String) (importance : Int)
      (tags : Option (List String)) (entity_ids : Option (List Int))
  | search_memories (query : String) (limit : Int) (threshold : Rat)
      (memory_types : Option (List String))
  | create_entity (name entity_type : String) (description : Option String)
      (importance : Int) (kwargs : Dict Json)
  | search_entities (query : String) (limit : Int)
  | unified_search (query : String) (limit : Int) (threshold : Rat)
      (memory_types entity_types : Option (List String))
  | get_statistics
  | create_user (email : String) (name organization : Option String)

/-- The request each derived operation hands to `_request` (method,
endpoint, query params, JSON body), resolved to the issued
`HttpRequest` for a client built from `config`. -/
def runOp (config : MemoryServiceConfig) : Op → HttpRequest
  | Op.health_check => buildRequest config "GET" "/api/health" [] none
  | Op.get_service_info => buildRequest config "GET" "/api" [] none
  | Op.add_memory t c mt imp tags eids =>
      buildRequest config "POST" "/api/memories" []
        (some (add_memory_body t c mt imp tags eids))
  | Op.search_memories q l th mts =>
      buildRequest config "GET" "/api/memories/search"
        (search_memories_params q l th mts) none
  | Op.create_entity n et d imp kw =>
      buildRequest config "POST" "/api/entities" []
        (some (create_entity_body n et d imp kw))
  | Op.search_entities q l =>
      buildRequest config "GET" "/api/entities/search"
        (search_entities_params q l) none
  | Op.unified_search q l th mts ets =>
      buildRequest config "GET" "/api/search"
        (unified_search_params q l th mts ets) none
  | Op.get_statistics => buildRequest config "GET" "/api/statistics" [] none
  | Op.create_user e n o =>
      buildRequest config "POST" "/api/users" []
        (some (create_user_body e n o))

/-- The sequence of client calls `main` makes, with its concrete
arguments. -/
def driverOps : List Op :=
  [Op.health_check,
   Op.get_service_info,
   Op.add_memory "Python Client Test"
     "This memory was created using the Python client library"
     "MEMORY" 3 (some ["test", "python", "api"]) none,
   Op.search_memories "Python client" 5 (7 / 10) none,
   Op.create_entity "Python Development Team" "ORGANIZATION"
     (some "Team responsible for Python client development") 3 [],
   Op.get_statistics]

/-- `main`'s try block over an oracle giving each call's outcome:
calls run in order, the first failure stops the sequence, is printed by
the `except Exception` handler, and makes `main` return 1; if every
call succeeds `main` returns 0. Result: (value passed to `exit`,
failure printed by the handler, if any). -/
def runDriverCalls (env : Op → Except RequestFailure Json) :
    List Op → Nat × Option RequestFailure
  | [] => (0, none)
  | op :: rest =>
    match env op with
    | Except.ok _ => runDriverCalls env rest
    | Except.error e => (1, some e)

/-- `exit(main())` of the example driver. -/
def runDriver (env : Op → Except RequestFailure Json) : Nat × Option RequestFailure :=
  runDriverCalls env driverOps

/-- Python truthiness of an optional string argument: `None` and `""`
are falsy, any other string is truthy. -/
def truthyStr : Option String → Bool
  | none => false
  | some s => if s = "" then false else true

/-- `true` iff the string's first character is `'/'`. -/
def startsWithSlash (s : String) : Bool :=
  match s.data with
  | [] => false
  | c :: _ => c = '/'

/-- `true` iff the string's last character is `'/'`. -/
def endsWithSlash (s : String) : Bool :=
  startsWithSlash (String.mk s.data.reverse)

theorem dropWhile_slash_head (l : List Char) :
    (match l.dropWhile (fun c => c = '/') with
     | [] => false
     | c :: _ => decide (c = '/')) = false := by
  induction l with
  | nil => rfl
  | cons c t ih =>
    rw [List.dropWhile_cons]
    by_cases hc : c = '/'
    · rw [if_pos (by simp [hc])]
      exact ih
    · rw [if_neg (by simp [hc])]
      simp [hc]

theorem startsWithSlash_pyLstripSlash (s : String) :
    startsWithSlash (pyLstripSlash s) = false := by
  have h := dropWhile_slash_head s.data
  simpa [startsWithSlash, pyLstripSlash] using h

theorem endsWithSlash_pyRstripSlash (s : String) :
    endsWithSlash (pyRstripSlash s) = false := by
  have h := dropWhile_slash_head s.data.reverse
  simpa [endsWithSlash, startsWithSlash, pyRstripSlash, List.reverse_reverse] using h

theorem clientHeaders_authorization (config : MemoryServiceConfig) :
    dictLookup (clientHeaders config) "Authorization"
      = some ("Bearer " ++ config.auth_token) := by
  rfl

/-- C1: the code assigns `session.timeout = config.timeout`, but the
requests library never reads that attribute — `Session.request` takes
its timeout only from the per-call keyword argument, which `_request`
never passes — so the request issued for a client with the default
config (timeout 30) carries no timeout at all, while the TLS
verification flag is applied as configured. -/
theorem timeout_attribute_never_applied :
    (runOp (mkConfig "https://mcp-memory-ts.vercel.app" "demo-token-for-testing")
        Op.health_check).timeout = none ∧
    (mkConfig "https://mcp-memory-ts.vercel.app" "demo-token-for-testing").timeout = 30 ∧
    (mkSession (mkConfig "https://mcp-memory-ts.vercel.app" "demo-token-for-testing")).timeoutAttr = 30 ∧
    (runOp (mkConfig "https://mcp-memory-ts.vercel.app" "demo-token-for-testing")
        Op.health_check).verify = true :=
  ⟨rfl, rfl, rfl, rfl⟩

/-- C3: the URL `_request` builds is `base_url` with all trailing
slashes stripped, then one `/`, then the endpoint with all leading
slashes stripped, so exactly one slash stands at the join point
whatever slashes the inputs carry there. -/
theorem requestUrl_single_join_slash (base_url endpoint : String) :
    requestUrl base_url endpoint
      = pyRstripSlash base_url ++ "/" ++ pyLstripSlash endpoint ∧
    endsWithSlash (pyRstripSlash base_url) = false ∧
    startsWithSlash (pyLstripSlash endpoint) = false :=
  ⟨rfl, endsWithSlash_pyRstripSlash base_url, startsWithSlash_pyLstripSlash endpoint⟩

/-- Every operation's request carries the session's header dict. -/
theorem runOp_headers (config : MemoryServiceConfig) (op : Op) :
    (runOp config op).headers = clientHeaders config := by
  cases op <;> rfl

/-- C4: every operation of a client built from a config with auth
token `t` issues its request with the `Authorization` header equal to
`"Bearer " ++ t`, and with the same header dict (hence the identical
Authorization header) across the client's whole lifetime. -/
theorem authorization_header_invariant (config : MemoryServiceConfig) (op : Op) :
    dictLookup (runOp config op).headers "Authorization"
      = some ("Bearer " ++ config.auth_token) ∧
    (runOp config op).headers = clientHeaders config := by
  rw [runOp_headers config op]
  exact ⟨clientHeaders_authorization config, rfl⟩

/-- C7: `add_memory(title, content)` with no optional arguments sends
exactly the body `{title, content, memory_type: "MEMORY",
importance: 2, tags: [], entity_ids: []}`. -/
theorem add_memory_defaults_body (title content : String) :
    add_memory_body_defaults title content
      = [("title", Json.str title),
         ("content", Json.str content),
         ("memory_type", Json.str "MEMORY"),
         ("importance", Json.int 2),
         ("tags", Json.arr []),
         ("entity_ids", Json.arr [])] := by
  rfl

theorem dictLookup_dictUpdate_not_mem {α : Type} (d : Dict α)
    (kvs : List (String × α)) (k : String) (h : k ∉ kvs.map Prod.fst) :
    dictLookup (dictUpdate d kvs) k = dictLookup d k := by
  induction kvs generalizing d with
  | nil => rfl
  | cons p t ih =>
    obtain ⟨k1, v1⟩ := p
    simp only [List.map_cons, List.mem_cons] at h
    push_neg at h
    show dictLookup (dictUpdate (dictInsert d k1 v1) t) k = dictLookup d k
    rw [ih _ h.2, dictLookup_dictInsert_ne d k1 k v1 h.1]

theorem dictLookup_dictUpdate_mem {α : Type} (d : Dict α)
    (kvs : List (String × α)) (k : String) (v : α)
    (hnodup : (kvs.map Prod.fst).Nodup) (hmem : (k, v) ∈ kvs) :
    dictLookup (dictUpdate d kvs) k = some v := by
  induction kvs generalizing d with
  | nil => simp at hmem
  | cons p t ih =>
    obtain ⟨k1, v1⟩ := p
    simp only [List.map_cons, List.nodup_cons] at hnodup
    rcases List.mem_cons.mp hmem with heq | hmem2
    · injection heq with h1 h2
      subst h1
      subst h2
      show dictLookup (dictUpdate (dictInsert d k v) t) k = some v
      rw [dictLookup_dictUpdate_not_mem _ _ _ hnodup.1, dictLookup_dictInsert_self]
    · exact ih (dictInsert d k1 v1) hnodup.2 hmem2

/-- C5: `create_entity` builds its body as the fixed fields
`{name, entity_type, importance}` with the caller's extra fields merged
in last — so an extra field's value is the one found in the body, even
on a key collision with a fixed field — while `description` appears
exactly when provided truthy. (Python's calling convention keeps the
declared parameter name `description` out of `kwargs`, which is a dict,
so its keys are distinct.) -/
theorem create_entity_kwargs_merge (name entity_type : String)
    (description : Option String) (importance : Int) (kwargs : Dict Json)
    (hnodup : (kwargs.map Prod.fst).Nodup)
    (hdesc : "description" ∉ kwargs.map Prod.fst) :
    (∀ k v, (k, v) ∈ kwargs →
      dictLookup (create_entity_body name entity_type description importance kwargs) k
        = some v) ∧
    (dictLookup (create_entity_body name entity_type description importance kwargs)
        "description"
      = match description with
        | some d => if d = "" then none else some (Json.str d)
        | none => none) ∧
    ("name" ∉ kwargs.map Prod.fst →
      dictLookup (create_entity_body name entity_type description importance kwargs) "name"
        = some (Json.str name)) ∧
    ("entity_type" ∉ kwargs.map Prod.fst →
      dictLookup (create_entity_body name entity_type description importance kwargs)
          "entity_type"
        = some (Json.str entity_type)) ∧
    ("importance" ∉ kwargs.map Prod.fst →
      dictLookup (create_entity_body name entity_type description importance kwargs)
          "importance"
        = some (Json.int importance)) := by
  have hbody : ∀ k : String, k ≠ "description" →
      dictLookup (create_entity_body name entity_type description importance kwargs) k
        = dictLookup (dictUpdate (dictOfList
            [("name", Json.str name), ("entity_type", Json.str entity_type),
             ("importance", Json.int importance)]) kwargs) k := by
    intro k hk
    unfold create_entity_body
    cases description with
    | none => rfl
    | some d =>
      by_cases hd : d = ""
      · simp only [if_pos hd]
      · simp only [if_neg hd]
        exact dictLookup_dictInsert_ne _ _ _ _ hk
  refine ⟨?_, ?_, ?_, ?_, ?_⟩
  · intro k v hkv
    have hk : k ≠ "description" := by
      intro he
      apply hdesc
      rw [← he]
      exact List.mem_map.mpr ⟨(k, v), hkv, rfl⟩
    rw [hbody k hk]
    exact dictLookup_dictUpdate_mem _ _ _ _ hnodup hkv
  · unfold create_entity_body
    cases description with
    | none =>
      rw [dictLookup_dictUpdate_not_mem _ _ _ hdesc]
      rfl
    | some d =>
      by_cases hd : d = ""
      · simp only [if_pos hd]
        rw [dictLookup_dictUpdate_not_mem _ _ _ hdesc]
        rfl
      · simp only [if_neg hd]
        rw [dictLookup_dictInsert_self]
  · intro hname
    rw [hbody "name" (by decide), dictLookup_dictUpdate_not_mem _ _ _ hname]
    rfl
  · intro het
    rw [hbody "entity_type" (by decide), dictLookup_dictUpdate_not_mem _ _ _ het]
    rfl
  · intro himp
    rw [hbody "importance" (by decide), dictLookup_dictUpdate_not_mem _ _ _ himp]
    rfl

/-- Witness for C5 at a concrete call: the extra field `importance`
overrides the fixed field, `notes` is added, and the provided
description appears. -/
theorem create_entity_kwargs_merge_witness :
    dictLookup (create_entity_body "Team" "ORGANIZATION" (some "desc") 2
        [("importance", Json.int 5), ("notes", Json.str "x")]) "importance"
      = some (Json.int 5) ∧
    dictLookup (create_entity_body "Team" "ORGANIZATION" (some "desc") 2
        [("importance", Json.int 5), ("notes", Json.str "x")]) "description"
      = some (Json.str "desc") := by
  constructor
  · exact (create_entity_kwargs_merge "Team" "ORGANIZATION" (some "desc") 2
      [("importance", Json.int 5), ("notes", Json.str "x")] (by decide) (by decide)).1
      "importance" (Json.int 5) (List.mem_cons_self _ _)
  · have h := (create_entity_kwargs_merge "Team" "ORGANIZATION" (some "desc") 2
      [("importance", Json.int 5), ("notes", Json.str "x")] (by decide) (by decide)).2.1
    simpa using h

/-- Status code the failure carries, when it carries a response. -/
def failureStatus : RequestFailure → Option Nat
  | RequestFailure.httpError resp => some resp.status
  | _ => none

/-- Payload the failure exposes, when it carries a response: the parsed
JSON error body when it parses, the raw text otherwise. -/
def failurePayload : RequestFailure → Option (Json ⊕ String)
  | RequestFailure.httpError resp => some (errorPayload resp)
  | _ => none

/-- A 404 response whose body parses as JSON. -/
def respNotFoundJson : HttpResponse :=
  { status := 404, text := "\x7b\"error\":\"not found\"\x7d",
    json := some (Json.obj [("error", Json.str "not found")]) }

/-- A 404 response whose body is not valid JSON. -/
def respNotFoundText : HttpResponse :=
  { status := 404, text := "Not Found", json := none }

/-- A 200 response with a JSON body. -/
def resp200ok : HttpResponse :=
  { status := 200, text := "\x7b\"ok\":true\x7d",
    json := some (Json.obj [("ok", Json.bool true)]) }

/-- A 304 Not Modified response whose body happens to parse as JSON. -/
def resp304 : HttpResponse :=
  { status := 304, text := "\x7b\"ok\":true\x7d",
    json := some (Json.obj [("ok", Json.bool true)]) }

/-- C2 counterexample: a 304 response is not 2xx, yet the call does
not fail — `raise_for_status` raises only for 400-599, so `_request`
returns the parsed body. -/
theorem non2xx_does_not_always_fail :
    is2xx resp304.status = false ∧
    (requestWithDiagnostics (Except.ok resp304)).1
      = Except.ok (Json.obj [("ok", Json.bool true)]) :=
  ⟨rfl, rfl⟩

/-- C2 (amended): for every response, if its status is 4xx or 5xx
(400-599) the call fails with the `HTTPError` — the ApiError — carrying
that response, whose status is the response's status code and whose
payload is the parsed JSON error body when the body parses as JSON and
the raw response text otherwise; if the status is outside 400-599 and
the body parses as JSON, the call returns the parsed body. -/
theorem request_status_contract (resp : HttpResponse) :
    (raisesForStatus resp.status = true →
      (requestWithDiagnostics (Except.ok resp)).1
        = Except.error (RequestFailure.httpError resp) ∧
      failureStatus (RequestFailure.httpError resp) = some resp.status ∧
      failurePayload (RequestFailure.httpError resp)
        = some (match resp.json with
                | some j => Sum.inl j
                | none => Sum.inr resp.text)) ∧
    (raisesForStatus resp.status = false →
      ∀ j : Json, resp.json = some j →
        (requestWithDiagnostics (Except.ok resp)).1 = Except.ok j) := by
  constructor
  · intro h
    refine ⟨?_, rfl, ?_⟩
    · simp [requestWithDiagnostics, requestOutcome, h]
    · simp only [failurePayload, errorPayload]
  · intro h j hj
    simp [requestWithDiagnostics, requestOutcome, h, hj]

/-- Witness for C2's amended theorem at concrete responses: a 404 with
JSON body fails exposing status 404 and the parsed payload, a 404 with
a non-JSON body exposes the raw text, and a 200 with JSON body returns
the parsed body. -/
theorem request_status_contract_witness :
    (requestWithDiagnostics (Except.ok respNotFoundJson)).1
      = Except.error (RequestFailure.httpError respNotFoundJson) ∧
    failureStatus (RequestFailure.httpError respNotFoundJson) = some 404 ∧
    failurePayload (RequestFailure.httpError respNotFoundJson)
      = some (Sum.inl (Json.obj [("error", Json.str "not found")])) ∧
    failurePayload (RequestFailure.httpError respNotFoundText)
      = some (Sum.inr "Not Found") ∧
    (requestWithDiagnostics (Except.ok resp200ok)).1
      = Except.ok (Json.obj [("ok", Json.bool true)]) := by
  refine ⟨((request_status_contract respNotFoundJson).1 rfl).1, rfl, ?_, ?_, 
    (request_status_contract resp200ok).2 rfl _ rfl⟩
  · have h := ((request_status_contract respNotFoundJson).1 rfl).2.2
    simpa [respNotFoundJson] using h
  · have h := ((request_status_contract respNotFoundText).1 rfl).2.2
    simpa [respNotFoundText] using h

/-- C10: the failure the try block produces is exactly what `_request`
re-raises after printing diagnostics — in particular, for an error
response the propagated failure is the original `HTTPError` carrying
that response, whether or not the diagnostic parse of the error body
succeeds (it fails for `respNotFoundText`, succeeds for
`respNotFoundJson`, with the same propagated error either way). -/
theorem request_propagates_original_failure :
    (∀ (tr : TransportOutcome) (e : RequestFailure),
      requestOutcome tr = Except.error e →
        (requestWithDiagnostics tr).1 = Except.error e) ∧
    (∀ resp : HttpResponse, raisesForStatus resp.status = true →
      (requestWithDiagnostics (Except.ok resp)).1
        = Except.error (RequestFailure.httpError resp)) := by
  constructor
  · intro tr e h
    simp [requestWithDiagnostics, h]
  · intro resp h
    simp [requestWithDiagnostics, requestOutcome, h]

/-- Witness for C10 at concrete failures: a transport error propagates
unchanged, and a 404 whose body does not parse as JSON still propagates
the original `HTTPError` (the diagnostic parse failure is confined to
the printed output). -/
theorem request_propagates_original_failure_witness :
    (requestWithDiagnostics (Except.error "timed out")).1
      = Except.error (RequestFailure.transportError "timed out") ∧
    (requestWithDiagnostics (Except.ok respNotFoundText)).1
      = Except.error (RequestFailure.httpError respNotFoundText) :=
  ⟨request_propagates_original_failure.1 (Except.error "timed out")
      (RequestFailure.transportError "timed out") rfl,
   request_propagates_original_failure.2 respNotFoundText rfl⟩

/-- C6: with no optional arguments, `search_memories` and
`unified_search` send exactly `{query, limit: 10, threshold: 0.7}`;
an absent or empty list parameter is omitted from the query dict; a
non-empty list parameter is sent comma-joined. -/
theorem search_params_contract :
    (∀ q : String, search_memories_params_defaults q
        = [("query", Json.str q), ("limit", Json.int 10),
           ("threshold", Json.dec (7 / 10))]) ∧
    (∀ q : String, unified_search_params_defaults q
        = [("query", Json.str q), ("limit", Json.int 10),
           ("threshold", Json.dec (7 / 10))]) ∧
    (∀ (q : String) (l : Int) (th : Rat),
      search_memories_params q l th (some []) = search_memories_params q l th none) ∧
    (∀ (q : String) (l : Int) (th : Rat),
      dictLookup (search_memories_params q l th none) "memory_types" = none) ∧
    (∀ (q : String) (l : Int) (th : Rat) (t : String) (ts : List String),
      dictLookup (search_memories_params q l th (some (t :: ts))) "memory_types"
        = some (Json.str (String.intercalate "," (t :: ts)))) ∧
    (∀ (q : String) (l : Int) (th : Rat) (mts : Option (List String)),
      unified_search_params q l th mts (some []) = unified_search_params q l th mts none) ∧
    (∀ (q : String) (l : Int) (th : Rat) (ets : Option (List String)),
      unified_search_params q l th (some []) ets = unified_search_params q l th none ets) ∧
    (∀ (q : String) (l : Int) (th : Rat),
      dictLookup (unified_search_params q l th none none) "memory_types" = none ∧
      dictLookup (unified_search_params q l th none none) "entity_types" = none) ∧
    (∀ (q : String) (l : Int) (th : Rat) (t u : String) (ts us : List String),
      dictLookup (unified_search_params q l th (some (t :: ts)) (some (u :: us)))
          "memory_types"
        = some (Json.str (String.intercalate "," (t :: ts))) ∧
      dictLookup (unified_search_params q l th (some (t :: ts)) (some (u :: us)))
          "entity_types"
        = some (Json.str (String.intercalate "," (u :: us)))) := by
  refine ⟨fun q => rfl, fun q => rfl, fun q l th => rfl, fun q l th => rfl,
    fun q l th t ts => rfl, fun q l th mts => rfl, fun q l th ets => rfl,
    fun q l th => ⟨rfl, rfl⟩, fun q l th t u ts us => ⟨rfl, rfl⟩⟩

theorem create_user_body_name_lookup (email : String) (name organization : Option String) :
    dictLookup (create_user_body email name organization) "name"
      = match name with
        | some n => if n = "" then none else some (Json.str n)
        | none => none := by
  cases name with
  | none =>
    cases organization with
    | none => rfl
    | some o =>
      by_cases ho : o = ""
      · subst ho
        rfl
      · simp [create_user_body, ho, dictInsert, dictLookup]
  | some n =>
    by_cases hn : n = ""
    · subst hn
      cases organization with
      | none => rfl
      | some o =>
        by_cases ho : o = ""
        · subst ho
          rfl
        · simp [create_user_body, ho, dictInsert, dictLookup]
    · cases organization with
      | none => simp [create_user_body, hn, dictInsert, dictLookup]
      | some o =>
        by_cases ho : o = ""
        · subst ho
          simp [create_user_body, hn, dictInsert, dictLookup]
        · simp only [create_user_body, if_neg hn, if_neg ho]
          rw [dictLookup_dictInsert_ne _ _ _ _
            (by decide : ("name" : String) ≠ "organization"),
            dictLookup_dictInsert_self]

theorem create_user_body_organization_lookup (email : String)
    (name organization : Option String) :
    dictLookup (create_user_body email name organization) "organization"
      = match organization with
        | some o => if o = "" then none else some (Json.str o)
        | none => none := by
  cases organization with
  | none =>
    cases name with
    | none => rfl
    | some n =>
      by_cases hn : n = ""
      · subst hn
        rfl
      · simp [create_user_body, hn, dictInsert, dictLookup]
  | some o =>
    by_cases ho : o = ""
    · subst ho
      cases name with
      | none => rfl
      | some n =>
        by_cases hn : n = ""
        · subst hn
          rfl
        · simp [create_user_body, hn, dictInsert, dictLookup]
    · cases name with
      | none => simp [create_user_body, ho, dictInsert, dictLookup]
      | some n =>
        by_cases hn : n = ""
        · subst hn
          simp [create_user_body, ho, dictInsert, dictLookup]
        · simp only [create_user_body, if_neg hn, if_neg ho]
          rw [dictLookup_dictInsert_self]

/-- C9: `create_user` treats an optional string argument given as `""`
exactly like an absent one — the field appears in the body iff the
argument is truthy (a non-empty string) — and `create_entity` likewise
omits an empty-string description. -/
theorem empty_optional_strings_omitted :
    (∀ email : String,
      create_user_body email (some "") (some "") = create_user_body email none none) ∧
    (∀ (email : String) (name organization : Option String),
      (dictLookup (create_user_body email name organization) "name").isSome
        = truthyStr name ∧
      (dictLookup (create_user_body email name organization) "organization").isSome
        = truthyStr organization) ∧
    (∀ (n et : String) (imp : Int) (kw : Dict Json),
      create_entity_body n et (some "") imp kw = create_entity_body n et none imp kw) := by
  refine ⟨fun email => rfl, fun email name org => ⟨?_, ?_⟩, fun n et imp kw => rfl⟩
  · rw [create_user_body_name_lookup]
    cases name with
    | none => rfl
    | some s =>
      by_cases hs : s = ""
      · simp [hs, truthyStr]
      · simp [hs, truthyStr]
  · rw [create_user_body_organization_lookup]
    cases org with
    | none => rfl
    | some s =>
      by_cases hs : s = ""
      · simp [hs, truthyStr]
      · simp [hs, truthyStr]

theorem runDriverCalls_all_ok (env : Op → Except RequestFailure Json) (l : List Op)
    (h : ∀ op ∈ l, ∃ j, env op = Except.ok j) :
    runDriverCalls env l = (0, none) := by
  induction l with
  | nil => rfl
  | cons op rest ih =>
    obtain ⟨j, hj⟩ := h op (List.mem_cons_self op rest)
    simp only [runDriverCalls, hj]
    exact ih (fun o ho => h o (List.mem_cons_of_mem _ ho))

theorem runDriverCalls_err (env : Op → Except RequestFailure Json) (l : List Op)
    (h : ∃ op ∈ l, ∃ e, env op = Except.error e) :
    (runDriverCalls env l).1 = 1 ∧ ((runDriverCalls env l).2).isSome = true := by
  induction l with
  | nil => simp at h
  | cons op rest ih =>
    cases henv : env op with
    | error e => simp [runDriverCalls, henv]
    | ok j =>
      simp only [runDriverCalls, henv]
      apply ih
      obtain ⟨o, ho, e, he⟩ := h
      rcases List.mem_cons.mp ho with heq | ho2
      · subst heq
        rw [henv] at he
        cases he
      · exact ⟨o, ho2, e, he⟩

/-- C8: the example driver runs its calls in sequence inside one
try-block; if every call succeeds `main` returns 0, and if any call
fails the first failure is caught, printed by the handler, and `main`
returns 1 — the value passed to `exit`. -/
theorem driver_exit_status (env : Op → Except RequestFailure Json) :
    ((∀ op ∈ driverOps, ∃ j, env op = Except.ok j) → runDriver env = (0, none)) ∧
    ((∃ op ∈ driverOps, ∃ e, env op = Except.error e) →
      (runDriver env).1 = 1 ∧ ((runDriver env).2).isSome = true) :=
  ⟨fun h => runDriverCalls_all_ok env driverOps h,
   fun h => runDriverCalls_err env driverOps h⟩

/-- An oracle under which every call succeeds. -/
def envAllOk : Op → Except RequestFailure Json :=
  fun _ => Except.ok Json.null

/-- An oracle under which every call fails with a transport error. -/
def envAllFail : Op → Except RequestFailure Json :=
  fun _ => Except.error (RequestFailure.transportError "connection refused")

/-- Witness for C8 at concrete oracles: all-success exits 0 with
nothing printed; a failing call exits 1 with the error printed. -/
theorem driver_exit_status_witness :
    runDriver envAllOk = (0, none) ∧
    (runDriver envAllFail).1 = 1 ∧ ((runDriver envAllFail).2).isSome = true := by
  refine ⟨(driver_exit_status envAllOk).1 ?_, (driver_exit_status envAllFail).2 ?_⟩
  · intro op _
    exact ⟨Json.null, rfl⟩
  · exact ⟨Op.health_check, by simp [driverOps], 
      RequestFailure.transportError "connection refused", rfl⟩
